import Mathlib

/-
Verification of `pipeline_runner/repository.py` (class `RepositoryCloner`):
a shallow embedding of the settings resolution, the clone-script generation,
the origin derivation, the clone orchestration, and an interpreter for the
generated bootstrap script, together with theorems about them.
-/

namespace PipelineRunner

/-- Modelled from the spec: the clone-depth value is `int | string` in the
configuration model (`models.py`, which is not among the staged sources). -/
inductive DepthV : Type
  | int (n : Int)
  | str (s : String)
deriving DecidableEq, Repr

/-- Modelled from the spec: `CloneSettings` from the pipeline configuration
model (`models.py`, not among the staged sources): three optional fields
`enabled`, `lfs`, `depth`, each possibly absent (`None`). -/
structure CloneSettings : Type where
  enabled : Option Bool
  lfs : Option Bool
  depth : Option DepthV
deriving DecidableEq, Repr

/-- `RepositoryCloner._first_non_none_value(*args)`:
`next((v for v in args if v is not None), None)`. -/
def first_non_none_value {T : Type} : List (Option T) → Option T
  | [] => none
  | none :: rest => first_non_none_value rest
  | some v :: _ => some v

/-- Python truthiness of an `Optional[bool]`: `bool(None) = False`,
`bool(b) = b`. -/
def pyBool : Option Bool → Bool
  | none => false
  | some b => b

/-- Python truthiness of an optional string (`os.environ.get` result):
`None` and the empty string are falsy. -/
def pyTruthyStr : Option String → Bool
  | none => false
  | some s => !(s == "")

/-- `RepositoryCloner._should_clone`: truthiness of the first non-`None`
`enabled` among step, global and built-in default settings. -/
def should_clone (stepS globalS dfltS : CloneSettings) : Bool :=
  pyBool (first_non_none_value [stepS.enabled, globalS.enabled, dfltS.enabled])

/-- `RepositoryCloner._should_clone_lfs`. -/
def should_clone_lfs (stepS globalS dfltS : CloneSettings) : Bool :=
  pyBool (first_non_none_value [stepS.lfs, globalS.lfs, dfltS.lfs])

/-- `RepositoryCloner._get_clone_depth`. -/
def get_clone_depth (stepS globalS dfltS : CloneSettings) : Option DepthV :=
  first_non_none_value [stepS.depth, globalS.depth, dfltS.depth]

/-- The workspace path computed at the top of `_get_clone_script`:
`config.remote_workspace_dir`, overridden by the environment variable
`PIPELINE_RUNNER_PARENT_REPO_PATH` when that is set and truthy (non-empty). -/
def resolve_workspace_path (remoteWorkspaceDir : String)
    (parentRepoPath : Option String) : String :=
  if pyTruthyStr parentRepoPath then parentRepoPath.getD "" else remoteWorkspaceDir

/-- The literal list of shell lines returned by `_get_clone_script`, as a
function of the already-resolved `workspace_path`. -/
def script_lines (workspace_path : String) : List String :=
  [ s!"echo 'Contents of workspace {workspace_path}:'",
    s!"ls -la {workspace_path}",
    s!"cp -r {workspace_path} $BUILD_DIR",
    s!"echo 'Checking for .git file in current workspace...'",
    s!"if [ -f {workspace_path}/.git ]; then",
    s!"  echo 'Found .git file at: {workspace_path}/.git'",
    s!"  echo 'This is a submodule .git file, removing it to let git handle it properly'",
    s!"  rm -f $BUILD_DIR/.git",
    "else",
    s!"  echo 'No .git file found in current workspace'",
    "fi",
    "if [ ! -d $BUILD_DIR/.git ]; then",
    "  echo 'Initializing git repository...'",
    "  cd $BUILD_DIR",
    "  git init",
    "  git config user.name bitbucket-pipelines",
    "  git config user.email commits-noreply@bitbucket.org",
    "  git add .",
    "  git commit -m 'Initial commit'",
    "  echo 'Creating initial commit...'",
    "else",
    "  echo 'Repository already exists, resetting...'",
    "  cd $BUILD_DIR",
    "  git add .",
    "  git commit -m 'Update commit'",
    "fi",
    "cd $BUILD_DIR",
    "echo 'Creating initial commit...'",
    "git add .",
    "if git diff --cached --quiet; then",
    "  echo 'No changes to commit, working tree is clean'",
    "else",
    "  git commit -m 'Initial commit'",
    "  echo 'Initial commit created'",
    "fi",
    "git config user.name bitbucket-pipelines",
    "git config user.email commits-noreply@bitbucket.org",
    "git config push.default current",
    "if git remote get-url origin >/dev/null 2>&1; then",
    s!"  git remote set-url origin file://{workspace_path}",
    "  echo 'Updated existing remote origin'",
    "else",
    s!"  git remote add origin file://{workspace_path}",
    "  echo 'Added remote origin'",
    "fi",
    "git reflog expire --expire=all --all",
    "echo '.bitbucket/pipelines/generated' >> .git/info/exclude",
    "if [ -f .gitmodules ]; then",
    "  git submodule update --init --recursive",
    "fi" ]

/-- `RepositoryCloner._get_clone_script`: resolves the workspace path, then
returns the fixed directive list over that path. -/
def get_clone_script (remoteWorkspaceDir : String)
    (parentRepoPath : Option String) : List String :=
  script_lines (resolve_workspace_path remoteWorkspaceDir parentRepoPath)

/-! ### Semantics of the generated bootstrap script

An interpreter for the directive sequence emitted by `_get_clone_script`,
over an abstract file-system/git state. Working-tree contents are abstracted
to a `Nat` (two trees are equal iff their abstractions are); a `.git` entry
is absent, a plain file (submodule marker), or a directory holding a
repository state. Per the spec's external-interface section, `run_script`
surfaces any failing step as a nonzero exit for the whole script, so the
interpreter aborts at the first failing command with its exit code. -/

/-- The kind of the `.git` entry of a directory tree. -/
inductive GitEntryKind : Type
  | noEntry
  | file
  | dir
deriving DecidableEq, Repr

/-- The state held by a `.git` directory, abstracted: commit messages in
order, the content captured by `HEAD`, the content staged in the index,
`git config` identity/push settings, the named remotes, and the lines of
`.git/info/exclude`. -/
structure Repo : Type where
  commits : List String := []
  headContent : Option Nat := none
  indexContent : Option Nat := none
  userName : Option String := none
  userEmail : Option String := none
  pushDefault : Option String := none
  remotes : List (String × String) := []
  exclude : List String := []
deriving DecidableEq, Repr

/-- The source tree the script copies from: the kind of its `.git` entry,
the repository state when that entry is a directory, the abstract
working-tree content, and whether a `.gitmodules` manifest is present. -/
structure Workspace : Type where
  gitEntry : GitEntryKind
  wsRepo : Repo
  content : Nat
  hasGitmodules : Bool
deriving DecidableEq, Repr

/-- The build directory (`$BUILD_DIR`) inside the container. -/
structure BuildDir : Type where
  gitEntry : GitEntryKind
  repo : Repo
  content : Nat
  hasGitmodules : Bool
deriving DecidableEq, Repr

/-- The build directory of a freshly provisioned container: empty, no
`.git` entry. -/
def freshBuild : BuildDir :=
  { gitEntry := GitEntryKind.noEntry, repo := {}, content := 0,
    hasGitmodules := false }

/-- Behavior-bearing directives of the script, recorded in execution
order. -/
inductive SEvent : Type
  | copyTree
  | rmGitFile
  | gitInit
  | commitAttempt (msg : String)
  | remoteSetUrl (url : String)
  | remoteAdd (url : String)
  | reflogExpire
  | excludeAppend (entry : String)
  | submoduleUpdate
deriving DecidableEq, Repr

/-- Result of running the script: the final build directory, the directives
that executed, and the script's exit code (0 on success; on a failing step
the code of that step, later directives never running). -/
structure ScriptResult : Type where
  build : BuildDir
  events : List SEvent
  exitCode : Nat
deriving DecidableEq, Repr

/-- `cp -r {workspace_path} $BUILD_DIR` (spec: copy the entire source tree
into the build directory): the working-tree content and the `.gitmodules`
marker come from the workspace; the `.git` entry is copied too, except that
an existing `.git` directory in the build tree cannot be displaced by the
copy. -/
def cpWorkspace (ws : Workspace) (b : BuildDir) : BuildDir :=
  { b with
    content := ws.content,
    hasGitmodules := ws.hasGitmodules,
    gitEntry := if b.gitEntry = GitEntryKind.dir then GitEntryKind.dir
      else ws.gitEntry,
    repo := if b.gitEntry = GitEntryKind.dir then b.repo else ws.wsRepo }

/-- `git add .`: the index now holds the working tree's content. -/
def gitAdd (c : Nat) (r : Repo) : Repo :=
  { r with indexContent := some c }

/-- `git commit -m msg`: `none` when the index matches `HEAD` (git exits
nonzero with nothing to commit), otherwise the new repository state. -/
def gitCommit (msg : String) (r : Repo) : Option Repo :=
  if r.indexContent = r.headContent then none
  else some { r with commits := r.commits ++ [msg], headContent := r.indexContent }

/-- The remote-registration block: `git remote set-url origin <url>` when a
remote named `origin` exists (updated in place), else
`git remote add origin <url>` (appended). -/
def register_origin (url : String) (remotes : List (String × String)) :
    List (String × String) :=
  if remotes.any (fun q => q.1 == "origin") then
    remotes.map (fun q => if q.1 == "origin" then ("origin", url) else q)
  else remotes ++ [("origin", url)]

/-- The exclude rule the script appends to `.git/info/exclude`. -/
def excludeEntry : String := ".bitbucket/pipelines/generated"

/-- Script lines from `git config user.name bitbucket-pipelines` (the block
after the guarded commit) to the end: identity and push configuration,
origin registration, reflog expiry, exclude append, conditional submodule
update. -/
def phase_config (path : String) (b : BuildDir) (evs : List SEvent) :
    ScriptResult :=
  let b := { b with repo := { b.repo with
    userName := some "bitbucket-pipelines",
    userEmail := some "commits-noreply@bitbucket.org",
    pushDefault := some "current" } }
  let ev := if b.repo.remotes.any (fun q => q.1 == "origin") then
      SEvent.remoteSetUrl s!"file://{path}"
    else SEvent.remoteAdd s!"file://{path}"
  let b := { b with repo := { b.repo with
    remotes := register_origin s!"file://{path}" b.repo.remotes } }
  let b := { b with repo := { b.repo with
    exclude := b.repo.exclude ++ [excludeEntry] } }
  let evs := evs ++ [ev, SEvent.reflogExpire, SEvent.excludeAppend excludeEntry]
  if b.hasGitmodules then
    { build := b, events := evs ++ [SEvent.submoduleUpdate], exitCode := 0 }
  else
    { build := b, events := evs, exitCode := 0 }

/-- Script lines `cd $BUILD_DIR; git add .; if git diff --cached --quiet;
then ... else git commit -m 'Initial commit' ... fi`: the guarded second
commit, a no-op when the staged tree matches `HEAD`. -/
def phase_common (path : String) (b : BuildDir) (evs : List SEvent) :
    ScriptResult :=
  let b := { b with repo := gitAdd b.content b.repo }
  if b.repo.indexContent = b.repo.headContent then
    phase_config path b evs
  else
    match gitCommit "Initial commit" b.repo with
    | some r =>
        phase_config path { b with repo := r }
          (evs ++ [SEvent.commitAttempt "Initial commit"])
    | none =>
        { build := b, events := evs ++ [SEvent.commitAttempt "Initial commit"],
          exitCode := 1 }

/-- Script lines `if [ ! -d $BUILD_DIR/.git ]; then ... git init ... git
commit -m 'Initial commit' else ... git commit -m 'Update commit' fi`: a
fresh repository is initialized and configured, staged and committed as
'Initial commit'; an existing one is staged and committed as 'Update
commit'. Either commit exits nonzero when nothing is staged relative to
`HEAD`, failing the script there. -/
def phase_init_or_update (path : String) (b : BuildDir) (evs : List SEvent) :
    ScriptResult :=
  if ¬ (b.gitEntry = GitEntryKind.dir) then
    let b := { b with gitEntry := GitEntryKind.dir, repo := {} }
    let b := { b with repo := { b.repo with
      userName := some "bitbucket-pipelines",
      userEmail := some "commits-noreply@bitbucket.org" } }
    let b := { b with repo := gitAdd b.content b.repo }
    let evs := evs ++ [SEvent.gitInit, SEvent.commitAttempt "Initial commit"]
    match gitCommit "Initial commit" b.repo with
    | some r => phase_common path { b with repo := r } evs
    | none => { build := b, events := evs, exitCode := 1 }
  else
    let b := { b with repo := gitAdd b.content b.repo }
    let evs := evs ++ [SEvent.commitAttempt "Update commit"]
    match gitCommit "Update commit" b.repo with
    | some r => phase_common path { b with repo := r } evs
    | none => { build := b, events := evs, exitCode := 1 }

/-- Execution of the full generated script against workspace `ws` with
resolved workspace path `path`, starting from build directory `b0`: the
copy, then the `.git`-file removal guarded by `[ -f {path}/.git ]` (where
`rm -f` exits nonzero on a directory), then the init-or-update block and
the rest. -/
def exec_clone_script (ws : Workspace) (path : String) (b0 : BuildDir) :
    ScriptResult :=
  let b := cpWorkspace ws b0
  let evs := [SEvent.copyTree]
  if ws.gitEntry = GitEntryKind.file then
    if b.gitEntry = GitEntryKind.dir then
      { build := b, events := evs ++ [SEvent.rmGitFile], exitCode := 1 }
    else
      phase_init_or_update path { b with gitEntry := GitEntryKind.noEntry }
        (evs ++ [SEvent.rmGitFile])
  else
    phase_init_or_update path b evs

/-! ### The clone orchestrator -/

/-- Calls `RepositoryCloner.clone` makes on its collaborators, in order. -/
inductive CEvent : Type
  | logInfo (msg : String)
  | start
  | runCommand (cmd : String) (user : Nat)
  | runScript (script : List String)
  | stop
deriving DecidableEq, Repr

/-- The container runtime's responses for one invocation: whether `start()`
returns normally, and the exit codes `run_command` and `run_script` would
report. -/
structure RuntimeBehavior : Type where
  startOk : Bool
  runCommandExit : Nat
  runScriptExit : Nat
deriving DecidableEq, Repr

/-- What a call to `clone()` did: the collaborator calls in order, and the
outcome (`Except.error` models a raised exception, carrying its message). -/
structure CloneResult : Type where
  events : List CEvent
  result : Except String Unit
deriving Repr

/-- The safe-directory command `clone()` runs before the bootstrap script:
`f"git config --system --add safe.directory '{config.remote_workspace_dir}/.git'"`. -/
def safe_dir_command (remoteWorkspaceDir : String) : String :=
  s!"git config --system --add safe.directory '{remoteWorkspaceDir}/.git'"

/-- `RepositoryCloner.clone`: skip (with an informational log) when
`_should_clone()` is falsy; otherwise start the container, run the
safe-directory command as user 0, run the generated script, and raise
`Exception("Error setting up repository")` on a truthy (nonzero) exit of
either, with `runner.stop()` in a `finally` block so it runs on every path
entered after `start()` returned. A `start()` failure propagates before the
`try` block is entered. -/
def clone (stepS globalS dfltS : CloneSettings) (remoteWorkspaceDir : String)
    (parentRepoPath : Option String) (rt : RuntimeBehavior) : CloneResult :=
  if ¬ should_clone stepS globalS dfltS then
    { events := [CEvent.logInfo "Clone disabled: skipping"],
      result := Except.ok () }
  else if ¬ rt.startOk then
    { events := [CEvent.start], result := Except.error "container start failed" }
  else
    let evs := [CEvent.start, CEvent.runCommand (safe_dir_command remoteWorkspaceDir) 0]
    if rt.runCommandExit ≠ 0 then
      { events := evs ++ [CEvent.stop],
        result := Except.error "Error setting up repository" }
    else
      let script := get_clone_script remoteWorkspaceDir parentRepoPath
      let evs := evs ++ [CEvent.runScript script]
      if rt.runScriptExit ≠ 0 then
        { events := evs ++ [CEvent.stop],
          result := Except.error "Error setting up repository" }
      else
        { events := evs ++ [CEvent.stop], result := Except.ok () }

/-- A Python runtime error raised while a function body executes. -/
inductive PyError : Type
  | nameError (name : String)
deriving DecidableEq, Repr

/-- `RepositoryCloner._get_origin`: a `@staticmethod` whose body, after the
truthy environment-variable branch, evaluates `hasattr(self, ...)` although
no `self` is in scope, so every path past the first branch raises
`NameError: name 'self' is not defined`; the final
`return f"file://{config.remote_workspace_dir}"` is unreachable. -/
def get_origin (parentRepoPath : Option String) : Except PyError String :=
  let p := parentRepoPath.getD ""
  if pyTruthyStr parentRepoPath then
    Except.ok s!"file://{p}"
  else
    Except.error (PyError.nameError "self")

/-! ### Helper lemmas -/

/-- Events appended by the configuration/registration tail of the script:
never a removal, an init, or a commit attempt. -/
theorem phase_config_tail (path : String) (b : BuildDir) (evs : List SEvent) :
    ∃ tail, (phase_config path b evs).events = evs ++ tail
      ∧ SEvent.rmGitFile ∉ tail ∧ SEvent.gitInit ∉ tail
      ∧ ∀ m, SEvent.commitAttempt m ∉ tail := by
  by_cases h1 : (b.repo.remotes.any fun q => q.1 == "origin") = true <;>
    by_cases h2 : b.hasGitmodules = true
  · exact ⟨[SEvent.remoteSetUrl s!"file://{path}", SEvent.reflogExpire,
      SEvent.excludeAppend excludeEntry, SEvent.submoduleUpdate],
      by simp [phase_config, h1, h2], by simp, by simp, by simp⟩
  · exact ⟨[SEvent.remoteSetUrl s!"file://{path}", SEvent.reflogExpire,
      SEvent.excludeAppend excludeEntry],
      by simp [phase_config, h1, h2], by simp, by simp, by simp⟩
  · exact ⟨[SEvent.remoteAdd s!"file://{path}", SEvent.reflogExpire,
      SEvent.excludeAppend excludeEntry, SEvent.submoduleUpdate],
      by simp [phase_config, h1, h2], by simp, by simp, by simp⟩
  · exact ⟨[SEvent.remoteAdd s!"file://{path}", SEvent.reflogExpire,
      SEvent.excludeAppend excludeEntry],
      by simp [phase_config, h1, h2], by simp, by simp, by simp⟩

/-- Events appended by the guarded-second-commit block and everything after
it: never a removal or an init. -/
theorem phase_common_tail (path : String) (b : BuildDir) (evs : List SEvent) :
    ∃ tail, (phase_common path b evs).events = evs ++ tail
      ∧ SEvent.rmGitFile ∉ tail ∧ SEvent.gitInit ∉ tail := by
  unfold phase_common
  by_cases hq : (gitAdd b.content b.repo).indexContent
      = (gitAdd b.content b.repo).headContent
  · simp only [hq, if_true]
    obtain ⟨tail, ht, h1, h2, _⟩ := phase_config_tail path _ evs
    exact ⟨tail, ht, h1, h2⟩
  · simp only [hq, if_false]
    cases hGc : gitCommit "Initial commit" (gitAdd b.content b.repo) with
    | none =>
        exact ⟨[SEvent.commitAttempt "Initial commit"], rfl, by simp, by simp⟩
    | some r =>
        obtain ⟨tail, ht, h1, h2, _⟩ :=
          phase_config_tail path _ (evs ++ [SEvent.commitAttempt "Initial commit"])
        refine ⟨[SEvent.commitAttempt "Initial commit"] ++ tail, ?_, by simp [h1], by simp [h2]⟩
        simpa using ht

/-- When no `.git` directory is in the build tree, the init block runs:
`git init`, identity configuration, staging, and an 'Initial commit'
(which succeeds, the fresh repository having no `HEAD`). -/
theorem phase_init_or_update_fresh (path : String) (b : BuildDir)
    (evs : List SEvent) (hb : ¬ b.gitEntry = GitEntryKind.dir) :
    ∃ tail, (phase_init_or_update path b evs).events
      = evs ++ [SEvent.gitInit, SEvent.commitAttempt "Initial commit"] ++ tail
      ∧ SEvent.rmGitFile ∉ tail ∧ SEvent.gitInit ∉ tail := by
  have hred : phase_init_or_update path b evs
      = phase_common path
          { b with
            gitEntry := GitEntryKind.dir,
            repo :=
              { commits := ["Initial commit"],
                headContent := some b.content,
                indexContent := some b.content,
                userName := some "bitbucket-pipelines",
                userEmail := some "commits-noreply@bitbucket.org" } }
          (evs ++ [SEvent.gitInit, SEvent.commitAttempt "Initial commit"]) := by
    unfold phase_init_or_update
    rw [if_pos hb]
    rfl
  rw [hred]
  obtain ⟨tail, ht, h1, h2⟩ := phase_common_tail path
    { b with
      gitEntry := GitEntryKind.dir,
      repo :=
        { commits := ["Initial commit"],
          headContent := some b.content,
          indexContent := some b.content,
          userName := some "bitbucket-pipelines",
          userEmail := some "commits-noreply@bitbucket.org" } }
    (evs ++ [SEvent.gitInit, SEvent.commitAttempt "Initial commit"])
  exact ⟨tail, by simpa using ht, h1, h2⟩

/-- When a `.git` directory is already in the build tree, the else block
runs: staging and an 'Update commit' attempt, which fails the script when
the staged tree matches `HEAD`. -/
theorem phase_init_or_update_existing (path : String) (b : BuildDir)
    (evs : List SEvent) (hb : b.gitEntry = GitEntryKind.dir) :
    ∃ tail, (phase_init_or_update path b evs).events
      = evs ++ [SEvent.commitAttempt "Update commit"] ++ tail
      ∧ SEvent.rmGitFile ∉ tail ∧ SEvent.gitInit ∉ tail := by
  rw [phase_init_or_update.eq_def, if_neg (not_not_intro hb)]
  cases hGc : gitCommit "Update commit" (gitAdd b.content b.repo) with
  | none =>
      refine ⟨[], ?_, by simp, by simp⟩
      simp [gitAdd] at hGc
      simp [gitAdd, hGc]
  | some r =>
      obtain ⟨tail, ht, h1, h2⟩ :=
        phase_common_tail path { b with repo := r }
          (evs ++ [SEvent.commitAttempt "Update commit"])
      refine ⟨tail, ?_, h1, h2⟩
      simp only [gitAdd] at hGc ⊢
      rw [hGc]
      simpa using ht

/-! ### The claims -/

/-- C1: for every field (enabled, lfs, depth) and every combination of
present/absent values among step-scoped, pipeline-scoped and built-in
default settings, the resolved value is the first non-`None` one in that
fixed order, and is `None` only when all three are `None`; each field is
resolved independently through `_first_non_none_value`. -/
theorem C1_settings_resolution {T : Type} (a b c : Option T) :
    (first_non_none_value [a, b, c] =
      (match a, b, c with
        | some v, _, _ => some v
        | none, some v, _ => some v
        | none, none, v => v))
    ∧ (first_non_none_value [a, b, c] = none ↔ (a = none ∧ b = none ∧ c = none))
    ∧ (∀ s g d : CloneSettings,
        get_clone_depth s g d = first_non_none_value [s.depth, g.depth, d.depth]
        ∧ should_clone s g d
            = pyBool (first_non_none_value [s.enabled, g.enabled, d.enabled])
        ∧ should_clone_lfs s g d
            = pyBool (first_non_none_value [s.lfs, g.lfs, d.lfs])) := by
  refine ⟨?_, ?_, fun s g d => ⟨rfl, rfl, rfl⟩⟩ <;>
    rcases a with _ | a <;> rcases b with _ | b <;> rcases c with _ | c <;>
      simp [first_non_none_value]

/-- C2: when the resolved `enabled` setting is `False`, `clone()` logs the
skip notice and returns normally; the container runtime's `start()` is
never invoked, no command or script runs, and no teardown happens because
nothing was provisioned. -/
theorem C2_clone_skips_when_disabled (stepS globalS dfltS : CloneSettings)
    (remoteDir : String) (parent : Option String) (rt : RuntimeBehavior)
    (h : first_non_none_value [stepS.enabled, globalS.enabled, dfltS.enabled]
      = some false) :
    (clone stepS globalS dfltS remoteDir parent rt).events
      = [CEvent.logInfo "Clone disabled: skipping"]
    ∧ (clone stepS globalS dfltS remoteDir parent rt).result = Except.ok ()
    ∧ CEvent.start ∉ (clone stepS globalS dfltS remoteDir parent rt).events
    ∧ (∀ c u, CEvent.runCommand c u
        ∉ (clone stepS globalS dfltS remoteDir parent rt).events)
    ∧ (∀ s, CEvent.runScript s
        ∉ (clone stepS globalS dfltS remoteDir parent rt).events)
    ∧ CEvent.stop ∉ (clone stepS globalS dfltS remoteDir parent rt).events := by
  have hsc : should_clone stepS globalS dfltS = false := by
    simp [should_clone, h, pyBool]
  simp [clone, hsc]

/-- Witness for C2 at the spec's own example: step `enabled` absent, global
`enabled = False`, default `enabled = True`. -/
theorem C2_clone_skips_when_disabled_witness :
    first_non_none_value
        [(none : Option Bool), some false, some true] = some false
    ∧ (clone ⟨none, none, none⟩ ⟨some false, none, none⟩ ⟨some true, none, none⟩
        "/ws" none ⟨true, 0, 0⟩).events
      = [CEvent.logInfo "Clone disabled: skipping"] :=
  ⟨rfl,
    (C2_clone_skips_when_disabled ⟨none, none, none⟩ ⟨some false, none, none⟩
      ⟨some true, none, none⟩ "/ws" none ⟨true, 0, 0⟩ rfl).1⟩

/-- C3: once `start()` has returned, `stop()` runs exactly once and is the
last collaborator call on every path — normal completion included — and a
nonzero exit from the safe-directory command or from the bootstrap script
makes `clone()` raise the single generic error
`Exception("Error setting up repository")` after that teardown. -/
theorem C3_teardown_on_every_path (stepS globalS dfltS : CloneSettings)
    (remoteDir : String) (parent : Option String) (rt : RuntimeBehavior)
    (hEnabled : should_clone stepS globalS dfltS = true)
    (hStart : rt.startOk = true) :
    (∃ pre, (clone stepS globalS dfltS remoteDir parent rt).events
        = pre ++ [CEvent.stop] ∧ CEvent.stop ∉ pre)
    ∧ ((rt.runCommandExit ≠ 0 ∨ rt.runScriptExit ≠ 0) →
        (clone stepS globalS dfltS remoteDir parent rt).result
          = Except.error "Error setting up repository")
    ∧ (rt.runCommandExit = 0 → rt.runScriptExit = 0 →
        (clone stepS globalS dfltS remoteDir parent rt).result
          = Except.ok ()) := by
  by_cases hc : rt.runCommandExit = 0
  · by_cases hs : rt.runScriptExit = 0
    · refine ⟨⟨[CEvent.start, CEvent.runCommand (safe_dir_command remoteDir) 0,
          CEvent.runScript (get_clone_script remoteDir parent)],
          by simp [clone, hEnabled, hStart, hc, hs], by simp⟩, ?_, ?_⟩
      · rintro (h | h) <;> exact absurd (by assumption) (by simp [hc, hs])
      · intro _ _
        simp [clone, hEnabled, hStart, hc, hs]
    · refine ⟨⟨[CEvent.start, CEvent.runCommand (safe_dir_command remoteDir) 0,
          CEvent.runScript (get_clone_script remoteDir parent)],
          by simp [clone, hEnabled, hStart, hc, hs], by simp⟩, ?_, ?_⟩
      · intro _
        simp [clone, hEnabled, hStart, hc, hs]
      · intro _ h
        exact absurd h hs
  · refine ⟨⟨[CEvent.start, CEvent.runCommand (safe_dir_command remoteDir) 0],
        by simp [clone, hEnabled, hStart, hc], by simp⟩, ?_, ?_⟩
    · intro _
      simp [clone, hEnabled, hStart, hc]
    · intro h _
      exact absurd h hc

/-- Witness for C3: enabled settings, successful start, script exiting 1. -/
theorem C3_teardown_on_every_path_witness :
    should_clone ⟨some true, none, none⟩ ⟨none, none, none⟩ ⟨none, none, none⟩
      = true
    ∧ (RuntimeBehavior.mk true 0 1).startOk = true
    ∧ (clone ⟨some true, none, none⟩ ⟨none, none, none⟩ ⟨none, none, none⟩
        "/ws" none ⟨true, 0, 1⟩).result
      = Except.error "Error setting up repository" :=
  ⟨rfl, rfl,
    (C3_teardown_on_every_path ⟨some true, none, none⟩ ⟨none, none, none⟩
      ⟨none, none, none⟩ "/ws" none ⟨true, 0, 1⟩ rfl rfl).2.1
      (Or.inr one_ne_zero)⟩

/-- The message of the first commit directive a script run executes. -/
def firstCommitMsg (evs : List SEvent) : Option String :=
  evs.findSome? fun e =>
    match e with
    | SEvent.commitAttempt m => some m
    | _ => none

/-- C5: running the generated script from a fresh build directory, a
workspace whose `.git` entry is a file has that file removed before any
init or commit directive; a workspace whose `.git` entry is a directory
sees no removal and no `git init`; `git init` runs exactly when no `.git`
directory is present after the removal step; and the first commit directive
is labeled 'Initial commit' on a freshly initialized repository and
'Update commit' on an existing one. -/
theorem C5_git_entry_classification (ws : Workspace) (path : String) :
    (ws.gitEntry = GitEntryKind.file →
      ∃ tail, (exec_clone_script ws path freshBuild).events
        = [SEvent.copyTree, SEvent.rmGitFile, SEvent.gitInit,
            SEvent.commitAttempt "Initial commit"] ++ tail)
    ∧ (ws.gitEntry = GitEntryKind.dir →
        SEvent.rmGitFile ∉ (exec_clone_script ws path freshBuild).events
        ∧ SEvent.gitInit ∉ (exec_clone_script ws path freshBuild).events)
    ∧ (SEvent.gitInit ∈ (exec_clone_script ws path freshBuild).events
        ↔ ¬ ws.gitEntry = GitEntryKind.dir)
    ∧ firstCommitMsg (exec_clone_script ws path freshBuild).events
        = some (if ws.gitEntry = GitEntryKind.dir then "Update commit"
            else "Initial commit") := by
  cases hE : ws.gitEntry with
  | file =>
      have hred : exec_clone_script ws path freshBuild
          = phase_init_or_update path
              { gitEntry := GitEntryKind.noEntry, repo := ws.wsRepo,
                content := ws.content, hasGitmodules := ws.hasGitmodules }
              [SEvent.copyTree, SEvent.rmGitFile] := by
        simp [exec_clone_script, cpWorkspace, freshBuild, hE]
      obtain ⟨tail, ht, h1, h2⟩ := phase_init_or_update_fresh path
        { gitEntry := GitEntryKind.noEntry, repo := ws.wsRepo,
          content := ws.content, hasGitmodules := ws.hasGitmodules }
        [SEvent.copyTree, SEvent.rmGitFile] (by simp)
      rw [hred, ht]
      simp only [hE]
      refine ⟨fun _ => ⟨tail, by simp⟩, fun h => absurd h (by simp), ?_, ?_⟩
      · simp
      · simp [firstCommitMsg, List.findSome?]
  | noEntry =>
      have hred : exec_clone_script ws path freshBuild
          = phase_init_or_update path
              { gitEntry := GitEntryKind.noEntry, repo := ws.wsRepo,
                content := ws.content, hasGitmodules := ws.hasGitmodules }
              [SEvent.copyTree] := by
        simp [exec_clone_script, cpWorkspace, freshBuild, hE]
      obtain ⟨tail, ht, h1, h2⟩ := phase_init_or_update_fresh path
        { gitEntry := GitEntryKind.noEntry, repo := ws.wsRepo,
          content := ws.content, hasGitmodules := ws.hasGitmodules }
        [SEvent.copyTree] (by simp)
      rw [hred, ht]
      refine ⟨fun h => absurd h (by simp), fun h => absurd h (by simp), ?_, ?_⟩
      · simp
      · simp [firstCommitMsg, List.findSome?]
  | dir =>
      have hred : exec_clone_script ws path freshBuild
          = phase_init_or_update path
              { gitEntry := GitEntryKind.dir, repo := ws.wsRepo,
                content := ws.content, hasGitmodules := ws.hasGitmodules }
              [SEvent.copyTree] := by
        simp [exec_clone_script, cpWorkspace, freshBuild, hE]
      obtain ⟨tail, ht, h1, h2⟩ := phase_init_or_update_existing path
        { gitEntry := GitEntryKind.dir, repo := ws.wsRepo,
          content := ws.content, hasGitmodules := ws.hasGitmodules }
        [SEvent.copyTree] rfl
      rw [hred, ht]
      simp only [hE]
      refine ⟨fun h => absurd h (by simp), fun _ => ⟨by simp [h1], by simp [h2]⟩,
        ?_, ?_⟩
      · simp [h2]
      · simp [firstCommitMsg, List.findSome?]

/-- Witness for C5 at a workspace whose `.git` entry is a submodule-marker
file: the script's trace starts with the copy, the removal, the init and
the 'Initial commit' attempt, in that order. -/
theorem C5_git_entry_classification_witness :
    (Workspace.mk GitEntryKind.file {} 7 false).gitEntry = GitEntryKind.file
    ∧ ∃ tail,
        (exec_clone_script (Workspace.mk GitEntryKind.file {} 7 false) "/ws"
            freshBuild).events
          = [SEvent.copyTree, SEvent.rmGitFile, SEvent.gitInit,
              SEvent.commitAttempt "Initial commit"] ++ tail :=
  ⟨rfl,
    (C5_git_entry_classification (Workspace.mk GitEntryKind.file {} 7 false)
      "/ws").1 rfl⟩

/-- C7: `origin` is registered as a `file://` reference to the resolved
workspace path; when a remote named `origin` already exists the
registration block rewrites its URL in place (no entry is added, other
remotes are untouched), and when none exists exactly one entry is
appended. On a fresh bootstrap the resulting remote list is exactly
`origin ↦ file://<path>`. -/
theorem C7_origin_registered_in_place :
    (∀ (url : String) (remotes : List (String × String)),
      ("origin", url) ∈ register_origin url remotes
      ∧ ((remotes.any fun q => q.1 == "origin") = true →
          (register_origin url remotes).length = remotes.length)
      ∧ ((remotes.any fun q => q.1 == "origin") = false →
          register_origin url remotes = remotes ++ [("origin", url)])
      ∧ (∀ q ∈ register_origin url remotes, q.1 = "origin" → q.2 = url)
      ∧ (∀ q ∈ remotes, ¬ q.1 = "origin" → q ∈ register_origin url remotes))
    ∧ (∀ (path : String) (c : Nat),
        (exec_clone_script
            (Workspace.mk GitEntryKind.noEntry {} c false) path
            freshBuild).build.repo.remotes
          = [("origin", s!"file://{path}")]) := by
  constructor
  · intro url remotes
    by_cases hAny : (remotes.any fun q => q.1 == "origin") = true
    · obtain ⟨q, hq, hq1⟩ := List.any_eq_true.mp hAny
      refine ⟨?_, fun _ => ?_,
        fun h => absurd (h.symm.trans hAny) Bool.false_ne_true, ?_, ?_⟩
      · rw [register_origin, if_pos hAny]
        exact List.mem_map.mpr ⟨q, hq, by simp [hq1]⟩
      · rw [register_origin, if_pos hAny]
        simp
      · intro p hp hp1
        rw [register_origin, if_pos hAny] at hp
        obtain ⟨p0, _, hp0⟩ := List.mem_map.mp hp
        by_cases h0 : (p0.1 == "origin") = true <;> simp [h0] at hp0
        · simp [← hp0]
        · rw [← hp0] at hp1
          exact absurd hp1 (by simpa using h0)
      · intro p hp hp1
        rw [register_origin, if_pos hAny]
        exact List.mem_map.mpr ⟨p, hp, by simp [show (p.1 == "origin") = false by
          simpa using hp1]⟩
    · have hAny' : (remotes.any fun q => q.1 == "origin") = false :=
        Bool.eq_false_iff.mpr hAny
      refine ⟨?_, fun h => absurd h hAny, fun _ => by
          rw [register_origin, if_neg hAny], ?_, ?_⟩
      · rw [register_origin, if_neg hAny]
        simp
      · intro p hp hp1
        rw [register_origin, if_neg hAny] at hp
        rcases List.mem_append.mp hp with hp | hp
        · have h2 := List.any_eq_false.mp hAny' p hp
          exact absurd (by simp [hp1]) h2
        · simp at hp
          simp [hp]
      · intro p hp _
        rw [register_origin, if_neg hAny]
        exact List.mem_append_left _ hp
  · intro path c
    simp [exec_clone_script, cpWorkspace, freshBuild, phase_init_or_update,
      phase_common, phase_config, gitAdd, gitCommit, register_origin]

/-- Witness for C7: an existing `origin` remote is rewritten in place, the
remote list keeping its length; a fresh bootstrap ends with exactly
`origin ↦ file:///ws`. -/
theorem C7_origin_registered_in_place_witness :
    ([(("origin", "file://old") : String × String)].any fun q => q.1 == "origin")
      = true
    ∧ (register_origin "file:///ws" [("origin", "file://old")]).length
        = [(("origin", "file://old") : String × String)].length
    ∧ (exec_clone_script (Workspace.mk GitEntryKind.noEntry {} 5 false) "/ws"
          freshBuild).build.repo.remotes
        = [("origin", "file:///ws")] := by
  refine ⟨by decide, (C7_origin_registered_in_place.1 "file:///ws"
    [("origin", "file://old")]).2.1 (by decide), ?_⟩
  rw [C7_origin_registered_in_place.2 "/ws" 5]
  rfl

/-- C4 (refuting the claim at the failing input): against a plain workspace
(no `.git` entry, unchanged contents), the first run of the generated
script succeeds and leaves one 'Initial commit'; the second run, against
the repository state the first produced, FAILS: the build tree now holds a
`.git` directory, so the else branch runs the unguarded
`git commit -m 'Update commit'`, which exits nonzero on the clean tree and
fails the whole script. No duplicate 'Initial commit' is created, but the
second run does not succeed without error. -/
theorem C4_second_run_fails_on_clean_tree :
    let ws : Workspace := Workspace.mk GitEntryKind.noEntry {} 5 false
    let r1 := exec_clone_script ws "/ws" freshBuild
    let r2 := exec_clone_script ws "/ws" r1.build
    r1.exitCode = 0
    ∧ r1.build.repo.commits = ["Initial commit"]
    ∧ r1.build.repo.exclude = [excludeEntry]
    ∧ r2.exitCode = 1
    ∧ r2.events.getLast? = some (SEvent.commitAttempt "Update commit")
    ∧ r2.build.repo.commits = ["Initial commit"] := by
  refine ⟨rfl, rfl, rfl, rfl, rfl, rfl⟩

/-- C6 counterexample: the override variable set to the empty string is a
set variable, yet the generated script uses the standard configured
workspace root (the script is identical to the unset case), not the
override value. -/
theorem C6_counterexample_empty_override :
    (some "" : Option String) ≠ none
    ∧ get_clone_script "/ws" (some "") = get_clone_script "/ws" none
    ∧ "cp -r /ws $BUILD_DIR" ∈ get_clone_script "/ws" (some "")
    ∧ "cp -r  $BUILD_DIR" ∉ get_clone_script "/ws" (some "")
    ∧ "  git remote add origin file://" ∉ get_clone_script "/ws" (some "") := by
  refine ⟨by simp, rfl, ?_, by decide, by decide⟩
  decide

/-- C6 (amended): when the override variable holds a NON-EMPTY value the
generated script is the directive list over that value — it copies the
workspace from it and registers `origin` against it; when the variable is
unset (or empty, Python truthiness) every path-bearing directive uses the
standard configured workspace root. -/
theorem C6_workspace_override (remoteDir : String) (p : String) (hp : p ≠ "") :
    resolve_workspace_path remoteDir (some p) = p
    ∧ resolve_workspace_path remoteDir none = remoteDir
    ∧ get_clone_script remoteDir (some p) = script_lines p
    ∧ get_clone_script remoteDir none = script_lines remoteDir
    ∧ (∀ path : String,
        s!"cp -r {path} $BUILD_DIR" ∈ script_lines path
        ∧ s!"ls -la {path}" ∈ script_lines path
        ∧ s!"  git remote set-url origin file://{path}" ∈ script_lines path
        ∧ s!"  git remote add origin file://{path}" ∈ script_lines path) := by
  have hres : resolve_workspace_path remoteDir (some p) = p := by
    simp [resolve_workspace_path, pyTruthyStr, hp]
  refine ⟨hres, rfl, ?_, rfl, ?_⟩
  · rw [get_clone_script, hres]
  · intro path
    refine ⟨?_, ?_, ?_, ?_⟩ <;> simp [script_lines]

/-- Witness for C6 at the spec's own example override `/parent/src`. -/
theorem C6_workspace_override_witness :
    ("/parent/src" : String) ≠ ""
    ∧ get_clone_script "/standard/ws" (some "/parent/src")
        = script_lines "/parent/src"
    ∧ "cp -r /parent/src $BUILD_DIR" ∈ script_lines "/parent/src" := by
  have h := C6_workspace_override "/standard/ws" "/parent/src" (by decide)
  exact ⟨by decide, h.2.2.1, by simpa using (h.2.2.2.2 "/parent/src").1⟩

/-- C8: with cloning enabled and the container started, the first and only
`run_command` call is the safe-directory configuration command, executed as
user 0, before any `run_script` call; when it exits nonzero, the bootstrap
script is never run and `clone()` raises the generic failure. -/
theorem C8_safe_directory_before_script (stepS globalS dfltS : CloneSettings)
    (remoteDir : String) (parent : Option String) (rt : RuntimeBehavior)
    (hEnabled : should_clone stepS globalS dfltS = true)
    (hStart : rt.startOk = true) :
    (∃ rest, (clone stepS globalS dfltS remoteDir parent rt).events
        = CEvent.start :: CEvent.runCommand (safe_dir_command remoteDir) 0 :: rest
      ∧ ∀ c u, CEvent.runCommand c u ∉ rest)
    ∧ (rt.runCommandExit ≠ 0 →
        (∀ s, CEvent.runScript s
          ∉ (clone stepS globalS dfltS remoteDir parent rt).events)
        ∧ (clone stepS globalS dfltS remoteDir parent rt).result
            = Except.error "Error setting up repository") := by
  by_cases hc : rt.runCommandExit = 0
  · by_cases hs : rt.runScriptExit = 0
    · exact ⟨⟨[CEvent.runScript (get_clone_script remoteDir parent), CEvent.stop],
        by simp [clone, hEnabled, hStart, hc, hs], by simp⟩,
        fun h => absurd hc h⟩
    · exact ⟨⟨[CEvent.runScript (get_clone_script remoteDir parent), CEvent.stop],
        by simp [clone, hEnabled, hStart, hc, hs], by simp⟩,
        fun h => absurd hc h⟩
  · refine ⟨⟨[CEvent.stop], by simp [clone, hEnabled, hStart, hc], by simp⟩,
      fun _ => ⟨?_, by simp [clone, hEnabled, hStart, hc]⟩⟩
    intro s
    simp [clone, hEnabled, hStart, hc]

/-- Witness for C8: enabled settings, a started container, and the
safe-directory command exiting 1: the script never runs. -/
theorem C8_safe_directory_before_script_witness :
    should_clone ⟨some true, none, none⟩ ⟨none, none, none⟩ ⟨none, none, none⟩
      = true
    ∧ (RuntimeBehavior.mk true 1 0).startOk = true
    ∧ (1 : Nat) ≠ 0
    ∧ ((∀ s, CEvent.runScript s
          ∉ (clone ⟨some true, none, none⟩ ⟨none, none, none⟩ ⟨none, none, none⟩
              "/ws" none ⟨true, 1, 0⟩).events)
        ∧ (clone ⟨some true, none, none⟩ ⟨none, none, none⟩ ⟨none, none, none⟩
            "/ws" none ⟨true, 1, 0⟩).result
          = Except.error "Error setting up repository") :=
  ⟨rfl, rfl, one_ne_zero,
    (C8_safe_directory_before_script ⟨some true, none, none⟩ ⟨none, none, none⟩
      ⟨none, none, none⟩ "/ws" none ⟨true, 1, 0⟩ rfl rfl).2 one_ne_zero⟩

/-- C9: script generation is a pure function of the resolved workspace
path: two environment snapshots that resolve to the same path yield
byte-identical directive lists. -/
theorem C9_script_pure_in_path (r1 r2 : String) (p1 p2 : Option String)
    (h : resolve_workspace_path r1 p1 = resolve_workspace_path r2 p2) :
    get_clone_script r1 p1 = get_clone_script r2 p2 := by
  rw [get_clone_script, get_clone_script, h]

/-- Witness for C9: no override against an override naming the same path
resolve alike, and the scripts coincide. -/
theorem C9_script_pure_in_path_witness :
    resolve_workspace_path "/ws" none
      = resolve_workspace_path "/other" (some "/ws")
    ∧ get_clone_script "/ws" none = get_clone_script "/other" (some "/ws") :=
  ⟨rfl, C9_script_pure_in_path "/ws" "/other" none (some "/ws") rfl⟩

/-- C10 counterexample: with the override variable SET to the empty string
(a set environment variable, falsy to Python), `_get_origin` does not
return a `file://` value; it raises the `NameError` too, refuting the
claim's 'when the variable is set it returns file://<override path>
without error'. -/
theorem C10_counterexample_empty_set :
    (some "" : Option String).isSome = true
    ∧ get_origin (some "") = Except.error (PyError.nameError "self") :=
  ⟨rfl, rfl⟩

/-- C10 (amended): when the override variable is unset — or set to a value
Python deems falsy, the empty string — `_get_origin` raises
`NameError: name 'self' is not defined` at the `hasattr(self, ...)` test of
its `@staticmethod` body, so the documented fallback returning
`file://<configured workspace dir>` is unreachable (the function never
returns successfully unless the variable holds a truthy value); when the
variable is set to a non-empty value it returns `file://<override path>`
without error. -/
theorem C10_get_origin_raises (p : String) (hp : p ≠ "") :
    get_origin (some p) = Except.ok s!"file://{p}"
    ∧ get_origin none = Except.error (PyError.nameError "self")
    ∧ get_origin (some "") = Except.error (PyError.nameError "self")
    ∧ (∀ q : Option String, (∃ s, get_origin q = Except.ok s) →
        pyTruthyStr q = true) := by
  refine ⟨by simp [get_origin, pyTruthyStr, hp], rfl, rfl, ?_⟩
  intro q hq
  by_cases h : pyTruthyStr q = true
  · exact h
  · obtain ⟨s, hs⟩ := hq
    rw [get_origin, if_neg h] at hs
    exact absurd hs (by simp)

/-- Witness for C10 at the non-empty override `/parent/src`. -/
theorem C10_get_origin_raises_witness :
    ("/parent/src" : String) ≠ ""
    ∧ get_origin (some "/parent/src") = Except.ok "file:///parent/src"
    ∧ get_origin none = Except.error (PyError.nameError "self") := by
  have h := C10_get_origin_raises "/parent/src" (by decide)
  refine ⟨by decide, ?_, h.2.1⟩
  rw [h.1]
  rfl

end PipelineRunner
